import Mathlib

/-!
# Verification of the `fs` adapter module (src/fs.js)

The module under verification is a thin facade exposing a Node-style file
API over an asynchronous host file-system service (expo-file-system).
Each operation performs argument normalization, one delegated host call,
and error-message wrapping.

Embedding conventions:
* Asynchronous JS functions become Lean functions that thread an abstract
  host-world state `σ` and return `Except JsError α × σ`: the wrapper's
  outcome together with the host state after the awaited call.
* Every host primitive the module consumes is a function parameter of the
  corresponding wrapper, so theorems quantify over arbitrary host behavior.
* A JS call site that omits an optional argument is modelled by passing
  `none`; the callee applies the source's parameter default.
* `throw new Error(msg)` becomes `Except.error (newError msg)`; the JS
  built-in `Error` class has runtime `name` field `"Error"`.
* The two pseudo-synchronous functions return a `SyncOutcome` recording
  both the value handed back by the synchronous `return` statement and
  what the detached promise continuation later does; in the JS event loop
  the `.then`/`.catch` continuations run strictly after the synchronous
  return, so only the `returned` field is ever observable by the caller.
-/

/-- An error produced by the host file-system service; only its `message`
is consumed by the module. -/
structure HostError where
  message : String
deriving DecidableEq

/-- A JavaScript error value as thrown by the module: `new Error(message)`.
`name` is the JS error class name. -/
structure JsError where
  name : String
  message : String
deriving DecidableEq

/-- Models `new Error(message)`: the built-in class's `name` is `"Error"`. -/
def newError (message : String) : JsError :=
  { name := "Error", message := message }

/-- The host's response to `getInfoAsync`. `size` is populated only when
the call asks for it (`{ size: true }`). -/
structure GetInfoResult where
  «exists» : Bool
  isFile : Bool
  isDirectory : Bool
  size : Option Nat
  modificationTime : Option Nat
deriving DecidableEq

/-- The stat descriptor built by `stat` (src/fs.js lines 130-135). The
source exposes `isFile`/`isDirectory` as zero-argument closures over the
host booleans; the embedding stores the booleans they return. -/
structure StatResult where
  isFile : Bool
  isDirectory : Bool
  size : Option Nat
  modificationTime : Option Nat
deriving DecidableEq

/-- The `options` object accepted by `mkdir`. `recursive = none` models an
options object with no `recursive` field (the field reads as `undefined`). -/
structure MkdirOptions where
  recursive : Option Bool
deriving DecidableEq

/-- Outcome of a pseudo-synchronous call (`existsSync`, `readFileSync`):
`returned` is the value produced by the synchronous `return` statement,
which in the JS event loop executes before the detached `.then`/`.catch`
continuations; the remaining fields record what those continuations later
do to the local variable, the host world, and the error they may raise in
detached (caller-unobservable) context. -/
structure SyncOutcome (σ : Type) (α : Type) where
  returned : α
  varAfterCompletion : α
  stateAfterCompletion : σ
  detachedError : Option JsError
deriving DecidableEq

/-- The host's encoding-name table, `FileSystem.EncodingType` of
expo-file-system: a string-keyed object `{ UTF8: 'utf8', Base64: 'base64' }`. -/
def EncodingType (key : String) : Option String :=
  if key = "UTF8" then some "utf8"
  else if key = "Base64" then some "base64"
  else none

/-- The parameter default `encoding = 'utf8'` shared by `readFile`,
`writeFile` and `readFileSync` in src/fs.js. -/
def defaultEncoding : String := "utf8"

/-- Models the JS `encoding.toUpperCase()` call (ASCII case fold), defined
by structural recursion over the characters so that proofs can evaluate it. -/
def strToUpper (s : String) : String :=
  String.mk (s.data.map Char.toUpper)

/-- Models `FileSystem.EncodingType[encoding.toUpperCase()] || FileSystem.EncodingType.UTF8`
(src/fs.js lines 13, 31, 179): case-folded lookup with silent UTF-8 fallback
(`||` falls back exactly when the lookup misses, since both table values are
truthy). -/
def resolveEncoding (encoding : String) : String :=
  (EncodingType (strToUpper encoding)).getD "utf8"

namespace fs

/-- `readFile(path, encoding = 'utf8')` (src/fs.js lines 10-19).
`hRead` is the host primitive `readAsStringAsync(path, { encoding })`. -/
def readFile {σ : Type} (hRead : String → String → σ → Except HostError String × σ)
    (path : String) (encoding : Option String) (s : σ) : Except JsError String × σ :=
  match hRead path (resolveEncoding (encoding.getD defaultEncoding)) s with
  | (.ok content, s2) => (.ok content, s2)
  | (.error e, s2) =>
      (.error (newError ("Failed to read file at " ++ path ++ ": " ++ e.message)), s2)

/-- `writeFile(path, data, encoding = 'utf8')` (src/fs.js lines 28-36).
`hWrite` is the host primitive `writeAsStringAsync(path, data, { encoding })`. -/
def writeFile {σ : Type} (hWrite : String → String → String → σ → Except HostError Unit × σ)
    (path : String) (data : String) (encoding : Option String) (s : σ) :
    Except JsError Unit × σ :=
  match hWrite path data (resolveEncoding (encoding.getD defaultEncoding)) s with
  | (.ok _, s2) => (.ok (), s2)
  | (.error e, s2) =>
      (.error (newError ("Failed to write file at " ++ path ++ ": " ++ e.message)), s2)

/-- `appendFile(path, data)` (src/fs.js lines 44-51): reads the current
contents via `fs.readFile` (encoding omitted), concatenates, and writes the
result via `fs.writeFile` (encoding omitted); either inner wrapper failure
is re-wrapped with the append template. -/
def appendFile {σ : Type} (hRead : String → String → σ → Except HostError String × σ)
    (hWrite : String → String → String → σ → Except HostError Unit × σ)
    (path : String) (data : String) (s : σ) : Except JsError Unit × σ :=
  match readFile hRead path none s with
  | (.ok existingData, s1) =>
      match writeFile hWrite path (existingData ++ data) none s1 with
      | (.ok _, s2) => (.ok (), s2)
      | (.error e, s2) =>
          (.error (newError ("Failed to append file at " ++ path ++ ": " ++ e.message)), s2)
  | (.error e, s1) =>
      (.error (newError ("Failed to append file at " ++ path ++ ": " ++ e.message)), s1)

/-- `unlink(path)` (src/fs.js lines 58-64), over host `deleteAsync`. -/
def unlink {σ : Type} (hDelete : String → σ → Except HostError Unit × σ)
    (path : String) (s : σ) : Except JsError Unit × σ :=
  match hDelete path s with
  | (.ok _, s2) => (.ok (), s2)
  | (.error e, s2) =>
      (.error (newError ("Failed to delete file at " ++ path ++ ": " ++ e.message)), s2)

/-- `exists(path)` (src/fs.js lines 71-78), over host `getInfoAsync(path)`
(no `size` option, hence the `false` second argument): returns `info.exists`
on success and `false` on any host failure (bare `catch`). -/
def «exists» {σ : Type} (hGetInfo : String → Bool → σ → Except HostError GetInfoResult × σ)
    (path : String) (s : σ) : Bool × σ :=
  match hGetInfo path false s with
  | (.ok info, s2) => (info.«exists», s2)
  | (.error _, s2) => (false, s2)

/-- `rename(oldPath, newPath)` (src/fs.js lines 86-92), over host
`moveAsync({ from, to })`. -/
def rename {σ : Type} (hMove : String → String → σ → Except HostError Unit × σ)
    (oldPath : String) (newPath : String) (s : σ) : Except JsError Unit × σ :=
  match hMove oldPath newPath s with
  | (.ok _, s2) => (.ok (), s2)
  | (.error e, s2) =>
      (.error (newError ("Failed to rename file from " ++ oldPath ++ " to " ++ newPath
        ++ ": " ++ e.message)), s2)

/-- The `intermediates` value `mkdir` hands to the host:
`options.recursive` after applying the whole-argument default
`options = { recursive: true }` (src/fs.js line 100). -/
def mkdirIntermediates (options : Option MkdirOptions) : Option Bool :=
  (options.getD { recursive := some true }).recursive

/-- `mkdir(path, options = { recursive: true })` (src/fs.js lines 100-106),
over host `makeDirectoryAsync(path, { intermediates })`. -/
def mkdir {σ : Type} (hMakeDir : String → Option Bool → σ → Except HostError Unit × σ)
    (path : String) (options : Option MkdirOptions) (s : σ) : Except JsError Unit × σ :=
  match hMakeDir path (mkdirIntermediates options) s with
  | (.ok _, s2) => (.ok (), s2)
  | (.error e, s2) =>
      (.error (newError ("Failed to create directory at " ++ path ++ ": " ++ e.message)), s2)

/-- `readdir(path)` (src/fs.js lines 113-120), over host `readDirectoryAsync`. -/
def readdir {σ : Type} (hList : String → σ → Except HostError (List String) × σ)
    (path : String) (s : σ) : Except JsError (List String) × σ :=
  match hList path s with
  | (.ok contents, s2) => (.ok contents, s2)
  | (.error e, s2) =>
      (.error (newError ("Failed to read directory at " ++ path ++ ": " ++ e.message)), s2)

/-- `stat(path)` (src/fs.js lines 127-139), over host
`getInfoAsync(path, { size: true })` — hence the `true` second argument. -/
def stat {σ : Type} (hGetInfo : String → Bool → σ → Except HostError GetInfoResult × σ)
    (path : String) (s : σ) : Except JsError StatResult × σ :=
  match hGetInfo path true s with
  | (.ok info, s2) =>
      (.ok { isFile := info.isFile, isDirectory := info.isDirectory,
             size := info.size, modificationTime := info.modificationTime }, s2)
  | (.error e, s2) =>
      (.error (newError ("Failed to retrieve stats for " ++ path ++ ": " ++ e.message)), s2)

/-- `copyFile(srcPath, destPath)` (src/fs.js lines 147-153), over host
`copyAsync({ from, to })`. -/
def copyFile {σ : Type} (hCopy : String → String → σ → Except HostError Unit × σ)
    (srcPath : String) (destPath : String) (s : σ) : Except JsError Unit × σ :=
  match hCopy srcPath destPath s with
  | (.ok _, s2) => (.ok (), s2)
  | (.error e, s2) =>
      (.error (newError ("Failed to copy file from " ++ srcPath ++ " to " ++ destPath
        ++ ": " ++ e.message)), s2)

/-- `existsSync(path)` (src/fs.js lines 160-168): initializes `exists = false`,
fires `getInfoAsync(path)` without awaiting, and returns `exists` immediately;
the `.then`/`.catch` assignments land only after the return. -/
def existsSync {σ : Type} (hGetInfo : String → Bool → σ → Except HostError GetInfoResult × σ)
    (path : String) (s : σ) : SyncOutcome σ Bool :=
  match hGetInfo path false s with
  | (.ok info, s2) =>
      { returned := false, varAfterCompletion := info.«exists»,
        stateAfterCompletion := s2, detachedError := none }
  | (.error _, s2) =>
      { returned := false, varAfterCompletion := false,
        stateAfterCompletion := s2, detachedError := none }

/-- `readFileSync(path, encoding = 'utf8')` (src/fs.js lines 176-186):
initializes `content = ''`, fires `readAsStringAsync` without awaiting, and
returns `content` immediately; on host failure the `.catch` handler throws a
wrapped error inside the detached continuation, where no caller can see it. -/
def readFileSync {σ : Type} (hRead : String → String → σ → Except HostError String × σ)
    (path : String) (encoding : Option String) (s : σ) : SyncOutcome σ String :=
  match hRead path (resolveEncoding (encoding.getD defaultEncoding)) s with
  | (.ok data, s2) =>
      { returned := "", varAfterCompletion := data,
        stateAfterCompletion := s2, detachedError := none }
  | (.error e, s2) =>
      { returned := "", varAfterCompletion := "",
        stateAfterCompletion := s2,
        detachedError := some (newError ("Failed to read file at " ++ path ++ ": " ++ e.message)) }

end fs

/-- The JS error class name of a wrapper outcome (empty on success). -/
def resName {α σ : Type} (r : Except JsError α × σ) : String :=
  match r.1 with
  | .error e => e.name
  | .ok _ => ""

/-- The error message of a wrapper outcome (empty on success). -/
def resMsg {α σ : Type} (r : Except JsError α × σ) : String :=
  match r.1 with
  | .error e => e.message
  | .ok _ => ""

example : resMsg (fs.readFile (fun _ _ (u : Unit) => (Except.error { message := "boom" }, u))
    "/p" none ()) = "Failed to read file at /p: boom" := rfl

example : (fs.existsSync (fun _ _ (u : Unit) => (Except.error { message := "x" }, u))
    "/p" ()).returned = false := rfl

/-! ## String helpers (executable, used to state message-shape facts) -/

deriving instance DecidableEq for Except

/-- `listStartsWith s pat` : `pat` is a leading run of `s`. -/
def listStartsWith (s pat : List Char) : Bool :=
  match pat, s with
  | [], _ => true
  | _ :: _, [] => false
  | p :: ps, c :: cs => p == c && listStartsWith cs ps

/-- `listContainsSub pat s` : `pat` occurs contiguously inside `s`. -/
def listContainsSub (pat : List Char) : List Char → Bool
  | [] => pat.isEmpty
  | c :: rest => listStartsWith (c :: rest) pat || listContainsSub pat rest

/-- String-level wrapper of `listStartsWith`. -/
def strStartsWith (s pat : String) : Bool :=
  listStartsWith s.data pat.data

/-- String-level wrapper of `listContainsSub`. -/
def strContainsSub (s pat : String) : Bool :=
  listContainsSub pat.data s.data

theorem listStartsWith_self_append (p r : List Char) :
    listStartsWith (p ++ r) p = true := by
  induction p with
  | nil => simp [listStartsWith]
  | cons c cs ih => simp [listStartsWith, ih]

theorem listStartsWith_extend {s p : List Char} (t : List Char)
    (h : listStartsWith s p = true) : listStartsWith (s ++ t) p = true := by
  induction p generalizing s with
  | nil => simp [listStartsWith]
  | cons c cs ih =>
    cases s with
    | nil => simp [listStartsWith] at h
    | cons d ds =>
      simp only [listStartsWith, Bool.and_eq_true] at h
      simp [listStartsWith, h.1, ih h.2]

theorem strStartsWith_self_append (p r : String) :
    strStartsWith (p ++ r) p = true := by
  simp only [strStartsWith, String.data_append]
  exact listStartsWith_self_append p.data r.data

theorem strStartsWith_extend {s p : String} (t : String)
    (h : strStartsWith s p = true) : strStartsWith (s ++ t) p = true := by
  simp only [strStartsWith, String.data_append] at h ⊢
  exact listStartsWith_extend t.data h

theorem listContainsSub_of_starts {p s : List Char}
    (h : listStartsWith s p = true) : listContainsSub p s = true := by
  cases s with
  | nil =>
    cases p with
    | nil => rfl
    | cons c cs => simp [listStartsWith] at h
  | cons c rest => simp [listContainsSub, h]

theorem listContainsSub_of_append (a p b : List Char) :
    listContainsSub p (a ++ (p ++ b)) = true := by
  induction a with
  | nil =>
    simp only [List.nil_append]
    exact listContainsSub_of_starts (listStartsWith_self_append p b)
  | cons c cs ih =>
    simp only [List.cons_append, listContainsSub, List.append_eq, ih, Bool.or_true]

/-- Any string of the shape `x ++ pat ++ y` contains `pat`; in particular a
message of the spec's claimed `"... at <path>: ..."` / `"... from <path> ..."`
shape contains `" at "` or `" from "`. -/
theorem strContainsSub_of_append (x pat y : String) :
    strContainsSub (x ++ (pat ++ y)) pat = true := by
  simp only [strContainsSub, String.data_append]
  exact listContainsSub_of_append x.data pat.data y.data

/-- All strings in the list are pairwise distinct (by `==`). -/
def distinctStrings : List String → Bool
  | [] => true
  | x :: xs => !xs.contains x && distinctStrings xs

/-! ## Modelled host (expo-file-system primitives)

The host service is external to the repository; the spec describes it only
as capabilities ("read-as-text, write-as-text, delete, move, copy,
make-directory, list-directory, get-info (optionally with size)").  The
definitions below model those capabilities over an explicit state, for the
claims that need a concrete sequential host semantics. -/

/-- Association-list lookup by path. -/
def getAssoc {α : Type} : List (String × α) → String → Option α
  | [], _ => none
  | (k, v) :: rest, key => if k = key then some v else getAssoc rest key

/-- Association-list update (replace or append). -/
def setAssoc {α : Type} : List (String × α) → String → α → List (String × α)
  | [], key, v => [(key, v)]
  | (k, w) :: rest, key, v =>
      if k = key then (key, v) :: rest else (k, w) :: setAssoc rest key v

theorem getAssoc_setAssoc_self {α : Type} (l : List (String × α)) (k : String) (v : α) :
    getAssoc (setAssoc l k v) k = some v := by
  induction l with
  | nil => simp [setAssoc, getAssoc]
  | cons hd tl ih =>
    by_cases h : hd.1 = k
    · simp [setAssoc, getAssoc, h]
    · simp [setAssoc, getAssoc, h, ih]

/-- Modelled from the spec: the state of the host file-system service —
text files by path, existing directories, per-path modification times, and
a clock supplying fresh timestamps. -/
structure FSState where
  files : List (String × String)
  dirs : List String
  mtimes : List (String × Nat)
  now : Nat
deriving DecidableEq

/-- Content of the file at `path`, if one exists. -/
def getFile (s : FSState) (path : String) : Option String :=
  getAssoc s.files path

/-- `path` names an existing directory (the empty path is the root). -/
def dirExists (s : FSState) (d : String) : Bool :=
  d = "" || s.dirs.contains d

/-- Splits a path on `'/'` (accumulator holds the current segment reversed). -/
def splitSlashAux : List Char → List Char → List (List Char)
  | [], acc => [acc.reverse]
  | c :: rest, acc =>
      if c = '/' then acc.reverse :: splitSlashAux rest []
      else splitSlashAux rest (c :: acc)

/-- Path segments of `s`, splitting on `'/'`. -/
def splitSlash (s : String) : List String :=
  (splitSlashAux s.data []).map String.mk

/-- Joins segments with `'/'`. -/
def joinSlash : List String → String
  | [] => ""
  | [p] => p
  | p :: rest => p ++ "/" ++ joinSlash rest

/-- The parent directory of `path`, when `path` has more than one segment. -/
def parentDir (path : String) : Option String :=
  let parts := splitSlash path
  if parts.length ≤ 1 then none else some (joinSlash parts.dropLast)

/-- All ancestors of `path` (itself included), shortest first. -/
def ancestorPaths (path : String) : List String :=
  let parts := splitSlash path
  (List.range parts.length).map (fun i => joinSlash (parts.take (i + 1)))

/-- Modelled from the spec: host `readAsStringAsync` — returns the file's
text, failing when no file is at `path`; the state is unchanged. -/
def hostReadAsString (path : String) (_encoding : String) (s : FSState) :
    Except HostError String × FSState :=
  match getFile s path with
  | some content => (.ok content, s)
  | none => (.error { message := "file is not readable" }, s)

/-- Modelled from the spec: host `writeAsStringAsync` — creates or
truncates the file at `path` with `data`, stamping the modification time
from the host clock. -/
def hostWriteAsString (path : String) (data : String) (_encoding : String) (s : FSState) :
    Except HostError Unit × FSState :=
  (.ok (), { s with files := setAssoc s.files path data,
                    mtimes := setAssoc s.mtimes path s.now,
                    now := s.now + 1 })

/-- Modelled from the spec: host `getInfoAsync` — reports existence and
kind; computes `size` (UTF-8 byte count) only when `withSize` is `true`. -/
def hostGetInfo (path : String) (withSize : Bool) (s : FSState) :
    Except HostError GetInfoResult × FSState :=
  match getFile s path with
  | some content =>
      (.ok { «exists» := true, isFile := true, isDirectory := false,
             size := if withSize then some content.utf8ByteSize else none,
             modificationTime := getAssoc s.mtimes path }, s)
  | none =>
      if s.dirs.contains path then
        (.ok { «exists» := true, isFile := false, isDirectory := true,
               size := if withSize then some 0 else none,
               modificationTime := getAssoc s.mtimes path }, s)
      else
        (.ok { «exists» := false, isFile := false, isDirectory := false,
               size := none, modificationTime := none }, s)

/-- Modelled from the spec: host `makeDirectoryAsync` — with
`intermediates` true it creates the directory together with every missing
ancestor; otherwise it fails when the parent directory does not exist. -/
def hostMakeDirectory (path : String) (intermediates : Option Bool) (s : FSState) :
    Except HostError Unit × FSState :=
  if intermediates = some true then
    (.ok (), { s with dirs := s.dirs ++ ancestorPaths path })
  else
    match parentDir path with
    | none => (.ok (), { s with dirs := s.dirs ++ [path] })
    | some parent =>
        if dirExists s parent then (.ok (), { s with dirs := s.dirs ++ [path] })
        else (.error { message := "parent directory is missing" }, s)

/-! Instantiations of the wrappers at the modelled host. -/

/-- `fs.readFile` over the modelled host. -/
def readFileS (path : String) (encoding : Option String) (s : FSState) :
    Except JsError String × FSState :=
  fs.readFile hostReadAsString path encoding s

/-- `fs.writeFile` over the modelled host. -/
def writeFileS (path : String) (data : String) (encoding : Option String) (s : FSState) :
    Except JsError Unit × FSState :=
  fs.writeFile hostWriteAsString path data encoding s

/-- `fs.appendFile` over the modelled host. -/
def appendFileS (path : String) (data : String) (s : FSState) :
    Except JsError Unit × FSState :=
  fs.appendFile hostReadAsString hostWriteAsString path data s

/-- `fs.mkdir` over the modelled host. -/
def mkdirS (path : String) (options : Option MkdirOptions) (s : FSState) :
    Except JsError Unit × FSState :=
  fs.mkdir hostMakeDirectory path options s

/-- `fs.stat` over the modelled host. -/
def statS (path : String) (s : FSState) : Except JsError StatResult × FSState :=
  fs.stat hostGetInfo path s

/-- The `size` field of a host get-info outcome (none on failure). -/
def infoSizeOf (r : Except HostError GetInfoResult) : Option Nat :=
  match r with
  | .ok info => info.size
  | .error _ => none

/-- The spec's name for the error `mkdir` raises, as realized by the code:
a generic `Error` whose message carries the directory-creation template. -/
def IsDirectoryCreateError (r : Except JsError Unit) : Prop :=
  ∃ e, r = .error e ∧ e.name = "Error" ∧
    strStartsWith e.message "Failed to create directory at " = true

example : parentDir "/a/b" = some "/a" := by decide
example : ancestorPaths "/a/b" = ["", "/a", "/a/b"] := by decide
example : (appendFileS "/f" "x" ⟨[("/f", "")], [], [], 0⟩).1 = .ok () := by decide
example : getFile (appendFileS "/f" "x" ⟨[("/f", "")], [], [], 0⟩).2 "/f" = some "x" := by decide

/-! ## Helper lemmas shared by the claim theorems -/

theorem startsWith_of_two_tails (pre a b c : String) :
    strStartsWith (pre ++ a ++ b ++ c) pre = true :=
  strStartsWith_extend c (strStartsWith_extend b (strStartsWith_self_append pre a))

theorem startsWith_of_four_tails (pre a b c d e : String) :
    strStartsWith (pre ++ a ++ b ++ c ++ d ++ e) pre = true :=
  strStartsWith_extend e (strStartsWith_extend d
    (strStartsWith_extend c (strStartsWith_extend b (strStartsWith_self_append pre a))))

/-- `readFileS` over the modelled host, computed. -/
theorem readFileS_eq (path : String) (s : FSState) :
    readFileS path none s =
      match getFile s path with
      | some c => (.ok c, s)
      | none =>
          (.error (newError ("Failed to read file at " ++ path ++ ": " ++ "file is not readable")), s) := by
  unfold readFileS fs.readFile hostReadAsString
  cases getFile s path <;> rfl

/-- `appendFileS` on a state whose file at `path` holds `content`. -/
theorem appendFileS_content (s : FSState) (path data content : String)
    (h : getFile s path = some content) :
    appendFileS path data s = (.ok (), { s with
      files := setAssoc s.files path (content ++ data),
      mtimes := setAssoc s.mtimes path s.now,
      now := s.now + 1 }) := by
  unfold appendFileS fs.appendFile fs.readFile hostReadAsString
  rw [h]
  rfl

/-! ## Claim theorems -/

/-- Claim C1: for every path (and, for `readFileSync`, every encoding), the
pseudo-synchronous operations return the placeholder value — `false` for
`existsSync` and `""` for `readFileSync` — whatever the host does (the host
call's outcome and the host world are universally quantified), and a host
failure is never observable by the caller: the value handed back by the
synchronous `return` is the placeholder in the success and the failure
branch alike, the failure branch raising its error only in the detached
continuation. -/
theorem fs_C1_pseudo_sync_placeholder :
    ∀ (σ : Type) (hInfo : String → Bool → σ → Except HostError GetInfoResult × σ)
      (hRead : String → String → σ → Except HostError String × σ)
      (path : String) (encoding : Option String) (s : σ),
      (fs.existsSync hInfo path s).returned = false ∧
      (fs.readFileSync hRead path encoding s).returned = "" := by
  intro σ hInfo hRead path encoding s
  constructor
  · unfold fs.existsSync
    rcases hInfo path false s with ⟨r, s2⟩
    cases r <;> rfl
  · unfold fs.readFileSync
    rcases hRead path (resolveEncoding (encoding.getD defaultEncoding)) s with ⟨r, s2⟩
    cases r <;> rfl

/-- Claim C2: `exists(path)` returns a boolean (its result type carries no
error channel), and whenever the host get-info call fails — for any reason
`e`, over any host world — it returns `false` instead of propagating the
failure. -/
theorem fs_C2_exists_false_on_host_failure :
    ∀ (σ : Type) (hGetInfo : String → Bool → σ → Except HostError GetInfoResult × σ)
      (path : String) (s : σ) (e : HostError) (s2 : σ),
      hGetInfo path false s = (.error e, s2) →
      fs.«exists» hGetInfo path s = (false, s2) := by
  intro σ hGetInfo path s e s2 hfail
  unfold fs.«exists»
  rw [hfail]

theorem fs_C2_witness :
    fs.«exists» (fun _ _ (u : Unit) => (Except.error { message := "boom" }, u)) "/p" ()
      = (false, ()) :=
  fs_C2_exists_false_on_host_failure Unit
    (fun _ _ u => (Except.error { message := "boom" }, u)) "/p" ()
    { message := "boom" } () rfl

/-- Claim C4: encoding-name resolution (shared by `readFile`, `writeFile`,
`readFileSync`) is case-insensitive — it depends only on the case-folded
name; any name missing from the host's table silently resolves to UTF-8;
and the parameter default when the encoding argument is omitted is
`'utf8'`, so an omitted argument and an explicit `'utf8'` give the same
call, for each of the three operations. -/
theorem fs_C4_encoding_resolution :
    (∀ e1 e2 : String, strToUpper e1 = strToUpper e2 → resolveEncoding e1 = resolveEncoding e2) ∧
    (∀ e : String, EncodingType (strToUpper e) = none → resolveEncoding e = "utf8") ∧
    defaultEncoding = "utf8" ∧
    (∀ (σ : Type) (hRead : String → String → σ → Except HostError String × σ)
        (path : String) (s : σ),
      fs.readFile hRead path none s = fs.readFile hRead path (some "utf8") s) ∧
    (∀ (σ : Type) (hWrite : String → String → String → σ → Except HostError Unit × σ)
        (path data : String) (s : σ),
      fs.writeFile hWrite path data none s = fs.writeFile hWrite path data (some "utf8") s) ∧
    (∀ (σ : Type) (hRead : String → String → σ → Except HostError String × σ)
        (path : String) (s : σ),
      fs.readFileSync hRead path none s = fs.readFileSync hRead path (some "utf8") s) ∧
    (∀ (σ : Type) (hRead : String → String → σ → Except HostError String × σ)
        (path e1 e2 : String) (s : σ), strToUpper e1 = strToUpper e2 →
      fs.readFile hRead path (some e1) s = fs.readFile hRead path (some e2) s) := by
  refine ⟨?_, ?_, rfl, fun _ _ _ _ => rfl, fun _ _ _ _ _ => rfl, fun _ _ _ _ => rfl, ?_⟩
  · intro e1 e2 h
    unfold resolveEncoding
    rw [h]
  · intro e h
    unfold resolveEncoding
    rw [h]
    rfl
  · intro σ hRead path e1 e2 s h
    unfold fs.readFile
    rw [show resolveEncoding ((some e1).getD defaultEncoding)
          = resolveEncoding ((some e2).getD defaultEncoding) by
        simp only [Option.getD_some]
        unfold resolveEncoding
        rw [h]]

theorem fs_C4_witness :
    resolveEncoding "Utf8" = resolveEncoding "UTF8" ∧
    resolveEncoding "latin1" = "utf8" ∧
    fs.readFile (fun _ _ (u : Unit) => (Except.ok "c", u)) "/p" (some "Utf8") () =
      fs.readFile (fun _ _ (u : Unit) => (Except.ok "c", u)) "/p" (some "UTF8") () :=
  ⟨fs_C4_encoding_resolution.1 "Utf8" "UTF8" (by decide),
   fs_C4_encoding_resolution.2.1 "latin1" (by decide),
   fs_C4_encoding_resolution.2.2.2.2.2.2 Unit (fun _ _ u => (Except.ok "c", u))
     "/p" "Utf8" "UTF8" () (by decide)⟩

/-- Claim C3: `appendFile` is the composition read-then-write — whenever the
read of `path` succeeds with `content`, the append succeeds and leaves the
file holding `content ++ data` — and consequently, starting from a file
initialized to empty content, `append(path, a)` then `append(path, b)`
(strictly sequenced) leaves the file holding `a ++ b`. Host primitives are
the spec-modelled sequential host. -/
theorem fs_C3_append_is_read_then_write :
    (∀ (s : FSState) (path data content : String) (s1 : FSState),
        readFileS path none s = (.ok content, s1) →
        ∃ s2, appendFileS path data s = (.ok (), s2) ∧
          getFile s2 path = some (content ++ data)) ∧
    (∀ (s : FSState) (path a b : String),
        getFile s path = some "" →
        ∃ s1 s2, appendFileS path a s = (.ok (), s1) ∧
          appendFileS path b s1 = (.ok (), s2) ∧
          getFile s2 path = some (a ++ b)) := by
  constructor
  · intro s path data content s1 hread
    rw [readFileS_eq] at hread
    cases hg : getFile s path with
    | none => rw [hg] at hread; simp at hread
    | some c =>
      rw [hg] at hread
      simp only [Prod.mk.injEq, Except.ok.injEq] at hread
      obtain ⟨hc, hs⟩ := hread
      subst hc
      exact ⟨_, appendFileS_content s path data _ hg,
        by simp [getFile, getAssoc_setAssoc_self]⟩
  · intro s path a b hfile
    have h1 := appendFileS_content s path a "" hfile
    have hfile1 : getFile { s with
        files := setAssoc s.files path ("" ++ a),
        mtimes := setAssoc s.mtimes path s.now,
        now := s.now + 1 } path = some ("" ++ a) := by
      simp [getFile, getAssoc_setAssoc_self]
    have h2 := appendFileS_content _ path b ("" ++ a) hfile1
    refine ⟨_, _, h1, h2, ?_⟩
    simp only [getFile, getAssoc_setAssoc_self]
    rfl

theorem fs_C3_witness :
    (∃ s2, appendFileS "/f" "x" ⟨[("/f", "hi")], [], [], 0⟩ = (.ok (), s2) ∧
        getFile s2 "/f" = some ("hi" ++ "x")) ∧
    (∃ s1 s2, appendFileS "/f" "a" ⟨[("/f", "")], [], [], 0⟩ = (.ok (), s1) ∧
        appendFileS "/f" "b" s1 = (.ok (), s2) ∧ getFile s2 "/f" = some ("a" ++ "b")) :=
  ⟨fs_C3_append_is_read_then_write.1 ⟨[("/f", "hi")], [], [], 0⟩ "/f" "x" "hi"
      ⟨[("/f", "hi")], [], [], 0⟩ (by decide),
   fs_C3_append_is_read_then_write.2 ⟨[("/f", "")], [], [], 0⟩ "/f" "a" "b" (by decide)⟩

/-- Claim C7: round-trip law over the spec-modelled host — for every state,
path, text and encoding argument, `writeFile(path, text, encoding)` succeeds
and an immediately following `readFile(path, encoding)` returns exactly
`text`. -/
theorem fs_C7_write_read_round_trip :
    ∀ (s : FSState) (path text : String) (enc : Option String),
      (writeFileS path text enc s).1 = .ok () ∧
      readFileS path enc (writeFileS path text enc s).2 =
        (.ok text, (writeFileS path text enc s).2) := by
  intro s path text enc
  constructor
  · rfl
  · unfold readFileS fs.readFile hostReadAsString writeFileS fs.writeFile hostWriteAsString
    simp [getFile, getAssoc_setAssoc_self]

/-- Claim C9: over the spec-modelled host, `stat` on a freshly written file
of `N = text.utf8ByteSize` bytes returns a descriptor with `isFile` true,
`isDirectory` false, `size` populated with `N`, and a present
`modificationTime`; and `size` is populated only because `stat` asks the
host for it (`{ size: true }`) — the same get-info call without the size
request reports no size. -/
theorem fs_C9_stat_fresh_file :
    ∀ (s : FSState) (path text : String),
      (statS path (writeFileS path text none s).2).1 =
        .ok { isFile := true, isDirectory := false,
              size := some text.utf8ByteSize, modificationTime := some s.now } ∧
      infoSizeOf (hostGetInfo path false (writeFileS path text none s).2).1 = none := by
  intro s path text
  unfold statS fs.stat writeFileS fs.writeFile hostWriteAsString hostGetInfo
  constructor
  · simp [getFile, getAssoc_setAssoc_self]
  · simp [getFile, getAssoc_setAssoc_self, infoSizeOf]

/-- Claim C8: `mkdir`'s recursive flag defaults to true — an omitted options
argument behaves exactly like `{ recursive: true }` — and when intermediate
segments of `path` are missing (the parent directory does not exist in the
modelled host), `mkdir` with `recursive: true` succeeds while `mkdir` with
`recursive: false` fails with the directory-creation error. -/
theorem fs_C8_mkdir_recursive_flag :
    ∀ (s : FSState) (path parent : String),
      parentDir path = some parent → dirExists s parent = false →
      (mkdirS path (some { recursive := some true }) s).1 = .ok () ∧
      mkdirS path none s = mkdirS path (some { recursive := some true }) s ∧
      IsDirectoryCreateError (mkdirS path (some { recursive := some false }) s).1 := by
  intro s path parent hp hd
  refine ⟨rfl, rfl, ?_⟩
  unfold mkdirS fs.mkdir hostMakeDirectory fs.mkdirIntermediates
  simp only [Option.getD_some]
  rw [if_neg (by simp : ¬ ((some false : Option Bool) = some true)), hp]
  simp only [hd, Bool.false_eq_true, if_false]
  exact ⟨_, rfl, rfl, startsWith_of_two_tails "Failed to create directory at " path ": "
    "parent directory is missing"⟩

theorem fs_C8_witness :
    ((mkdirS "/a/b" (some { recursive := some true }) ⟨[], [], [], 0⟩).1 = .ok () ∧
     mkdirS "/a/b" none ⟨[], [], [], 0⟩ =
       mkdirS "/a/b" (some { recursive := some true }) ⟨[], [], [], 0⟩ ∧
     IsDirectoryCreateError (mkdirS "/a/b" (some { recursive := some false }) ⟨[], [], [], 0⟩).1) :=
  fs_C8_mkdir_recursive_flag ⟨[], [], [], 0⟩ "/a/b" "/a" (by decide) (by decide)

/-- Claim C10: when `mkdir` receives an explicit options object lacking a
`recursive` field, the host directory-creation call receives
`intermediates = undefined` (modelled as `none`, non-recursive behavior):
the `options = { recursive: true }` default applies only when the whole
argument is omitted, not per missing field — so on missing intermediates
the `{}` call fails with the directory-creation error while the
omitted-argument call succeeds. -/
theorem fs_C10_mkdir_empty_options :
    (fs.mkdirIntermediates (some { recursive := none }) = none ∧
     fs.mkdirIntermediates none = some true) ∧
    (∀ (s : FSState) (path parent : String),
      parentDir path = some parent → dirExists s parent = false →
      IsDirectoryCreateError (mkdirS path (some { recursive := none }) s).1 ∧
      (mkdirS path none s).1 = .ok ()) := by
  refine ⟨⟨rfl, rfl⟩, ?_⟩
  intro s path parent hp hd
  refine ⟨?_, rfl⟩
  unfold mkdirS fs.mkdir hostMakeDirectory fs.mkdirIntermediates
  simp only [Option.getD_some]
  rw [if_neg (by simp : ¬ ((none : Option Bool) = some true)), hp]
  simp only [hd, Bool.false_eq_true, if_false]
  exact ⟨_, rfl, rfl, startsWith_of_two_tails "Failed to create directory at " path ": "
    "parent directory is missing"⟩

theorem fs_C10_witness :
    IsDirectoryCreateError (mkdirS "/x/y" (some { recursive := none }) ⟨[], [], [], 0⟩).1 ∧
    (mkdirS "/x/y" none ⟨[], [], [], 0⟩).1 = .ok () :=
  fs_C10_mkdir_empty_options.2 ⟨[], [], [], 0⟩ "/x/y" "/x" (by decide) (by decide)

/-- Counterexample to claim C5: every throw site in src/fs.js is
`new Error(...)`, so at a concrete host failure the error `readFile` raises
has JS class name `"Error"` — not `"FileReadError"` — and `writeFile`'s
error has the very same class name, so the operations do not fail with
distinct named error kinds. -/
theorem fs_C5_counterexample :
    resName (fs.readFile (fun _ _ (u : Unit) => (Except.error { message := "boom" }, u))
        "/p" none ()) = "Error" ∧
    resName (fs.writeFile (fun _ _ _ (u : Unit) => (Except.error { message := "boom" }, u))
        "/p" "d" none ()) = "Error" ∧
    resName (fs.readFile (fun _ _ (u : Unit) => (Except.error { message := "boom" }, u))
        "/p" none ()) =
      resName (fs.writeFile (fun _ _ _ (u : Unit) => (Except.error { message := "boom" }, u))
        "/p" "d" none ()) ∧
    ("Error" == "FileReadError") = false ∧
    ("Error" == "FileWriteError") = false := by
  refine ⟨rfl, rfl, rfl, by decide, by decide⟩

/-- Claim C5 as amended: every operation fails with the single generic JS
`Error` kind (class name `"Error"`); what distinguishes the operations for
a caller is not a named error class but the fixed, operation-specific
message template — each failure message starts with its operation's
template head, and the nine heads are pairwise distinct. -/
theorem fs_C5_amended :
    (∀ (σ : Type) (e : HostError) (p q d : String) (enc : Option String) (s : σ),
      (resName (fs.readFile (fun _ _ t => (.error e, t)) p enc s) = "Error" ∧
        strStartsWith (resMsg (fs.readFile (fun _ _ t => (.error e, t)) p enc s))
          "Failed to read file at " = true) ∧
      (resName (fs.writeFile (fun _ _ _ t => (.error e, t)) p d enc s) = "Error" ∧
        strStartsWith (resMsg (fs.writeFile (fun _ _ _ t => (.error e, t)) p d enc s))
          "Failed to write file at " = true) ∧
      (resName (fs.appendFile (fun _ _ t => (.error e, t)) (fun _ _ _ t => (.ok (), t)) p d s)
          = "Error" ∧
        strStartsWith
          (resMsg (fs.appendFile (fun _ _ t => (.error e, t)) (fun _ _ _ t => (.ok (), t)) p d s))
          "Failed to append file at " = true) ∧
      (resName (fs.unlink (fun _ t => (.error e, t)) p s) = "Error" ∧
        strStartsWith (resMsg (fs.unlink (fun _ t => (.error e, t)) p s))
          "Failed to delete file at " = true) ∧
      (resName (fs.rename (fun _ _ t => (.error e, t)) p q s) = "Error" ∧
        strStartsWith (resMsg (fs.rename (fun _ _ t => (.error e, t)) p q s))
          "Failed to rename file from " = true) ∧
      (resName (fs.mkdir (fun _ _ t => (.error e, t)) p none s) = "Error" ∧
        strStartsWith (resMsg (fs.mkdir (fun _ _ t => (.error e, t)) p none s))
          "Failed to create directory at " = true) ∧
      (resName (fs.readdir (fun _ t => (.error e, t)) p s) = "Error" ∧
        strStartsWith (resMsg (fs.readdir (fun _ t => (.error e, t)) p s))
          "Failed to read directory at " = true) ∧
      (resName (fs.stat (fun _ _ t => (.error e, t)) p s) = "Error" ∧
        strStartsWith (resMsg (fs.stat (fun _ _ t => (.error e, t)) p s))
          "Failed to retrieve stats for " = true) ∧
      (resName (fs.copyFile (fun _ _ t => (.error e, t)) p q s) = "Error" ∧
        strStartsWith (resMsg (fs.copyFile (fun _ _ t => (.error e, t)) p q s))
          "Failed to copy file from " = true)) ∧
    distinctStrings
      ["Failed to read file at ", "Failed to write file at ", "Failed to append file at ",
       "Failed to delete file at ", "Failed to rename file from ",
       "Failed to create directory at ", "Failed to read directory at ",
       "Failed to retrieve stats for ", "Failed to copy file from "] = true := by
  constructor
  · intro σ e p q d enc s
    exact ⟨⟨rfl, startsWith_of_two_tails "Failed to read file at " p ": " e.message⟩,
      ⟨rfl, startsWith_of_two_tails "Failed to write file at " p ": " e.message⟩,
      ⟨rfl, startsWith_of_two_tails "Failed to append file at " p ": "
        ("Failed to read file at " ++ p ++ ": " ++ e.message)⟩,
      ⟨rfl, startsWith_of_two_tails "Failed to delete file at " p ": " e.message⟩,
      ⟨rfl, startsWith_of_four_tails "Failed to rename file from " p " to " q ": " e.message⟩,
      ⟨rfl, startsWith_of_two_tails "Failed to create directory at " p ": " e.message⟩,
      ⟨rfl, startsWith_of_two_tails "Failed to read directory at " p ": " e.message⟩,
      ⟨rfl, startsWith_of_two_tails "Failed to retrieve stats for " p ": " e.message⟩,
      ⟨rfl, startsWith_of_four_tails "Failed to copy file from " p " to " q ": " e.message⟩⟩
  · decide

/-- Counterexample to claim C6: at a concrete host failure, `stat`'s error
message is `"Failed to retrieve stats for /p: boom"`, which contains
neither `" at "` nor `" from "` — whereas any message of the claimed fixed
form `"Failed to <verb> <noun> at/from <path>...: <underlying>"` contains
one of them (`strContainsSub_of_append`). -/
theorem fs_C6_counterexample :
    resMsg (fs.stat (fun _ _ (u : Unit) => (Except.error { message := "boom" }, u)) "/p" ()) =
      "Failed to retrieve stats for /p: boom" ∧
    strContainsSub "Failed to retrieve stats for /p: boom" " at " = false ∧
    strContainsSub "Failed to retrieve stats for /p: boom" " from " = false := by
  refine ⟨by decide, by decide, by decide⟩

/-- Claim C6 as amended: on any host failure, each operation raises an error
whose message is its fixed template with the underlying host error's
message appended after `": "` — so the underlying message is always
embedded, never discarded. Eight operations follow the claimed
`at`/`from` pattern; the exception forced by the counterexample is `stat`,
whose template is `"Failed to retrieve stats for <path>: <underlying>"`.
`appendFile` wraps the failing inner operation's already-wrapped message,
so the host message is embedded there through one more level; the failure
branch of `readFileSync` builds the read template inside its detached
handler. -/
theorem fs_C6_amended :
    ∀ (σ : Type) (e : HostError) (p q d : String) (enc : Option String) (s : σ),
      resMsg (fs.readFile (fun _ _ t => (.error e, t)) p enc s) =
        "Failed to read file at " ++ p ++ ": " ++ e.message ∧
      resMsg (fs.writeFile (fun _ _ _ t => (.error e, t)) p d enc s) =
        "Failed to write file at " ++ p ++ ": " ++ e.message ∧
      resMsg (fs.appendFile (fun _ _ t => (.error e, t)) (fun _ _ _ t => (.ok (), t)) p d s) =
        "Failed to append file at " ++ p ++ ": " ++
          ("Failed to read file at " ++ p ++ ": " ++ e.message) ∧
      resMsg (fs.appendFile (fun _ _ t => (.ok "", t)) (fun _ _ _ t => (.error e, t)) p d s) =
        "Failed to append file at " ++ p ++ ": " ++
          ("Failed to write file at " ++ p ++ ": " ++ e.message) ∧
      resMsg (fs.unlink (fun _ t => (.error e, t)) p s) =
        "Failed to delete file at " ++ p ++ ": " ++ e.message ∧
      resMsg (fs.rename (fun _ _ t => (.error e, t)) p q s) =
        "Failed to rename file from " ++ p ++ " to " ++ q ++ ": " ++ e.message ∧
      resMsg (fs.mkdir (fun _ _ t => (.error e, t)) p none s) =
        "Failed to create directory at " ++ p ++ ": " ++ e.message ∧
      resMsg (fs.readdir (fun _ t => (.error e, t)) p s) =
        "Failed to read directory at " ++ p ++ ": " ++ e.message ∧
      resMsg (fs.stat (fun _ _ t => (.error e, t)) p s) =
        "Failed to retrieve stats for " ++ p ++ ": " ++ e.message ∧
      resMsg (fs.copyFile (fun _ _ t => (.error e, t)) p q s) =
        "Failed to copy file from " ++ p ++ " to " ++ q ++ ": " ++ e.message ∧
      (fs.readFileSync (fun _ _ t => (.error e, t)) p enc s).detachedError =
        some (newError ("Failed to read file at " ++ p ++ ": " ++ e.message)) := by
  intro σ e p q d enc s
  exact ⟨rfl, rfl, rfl, rfl, rfl, rfl, rfl, rfl, rfl, rfl, rfl⟩
